import Mathlib

/-!
Shallow embedding of the multi-database query tool (`src/app.py`) and proofs
about its behaviour.  Python strings are modelled as `List Char`; the external
services (database drivers, the generation service) are modelled as oracles
whose outcomes the theorems quantify over.  Wherever a Python exception can
escape the code under scrutiny, the embedding returns an explicit error value.
-/

namespace MultiDB

/-- The backtick character, written via its code point. -/
def tick : Char := Char.ofNat 96

/-- Model of Python `str.strip()`: remove leading and trailing whitespace. -/
def pyStripChars (s : List Char) : List Char :=
  (((s.dropWhile Char.isWhitespace).reverse.dropWhile Char.isWhitespace)).reverse

/-- Accumulator loop for parsing a run of decimal digits; fails on the first
non-digit character. -/
def digitsValAux : Nat → List Char → Option Nat
  | acc, [] => some acc
  | acc, c :: rest =>
    if c.isDigit then digitsValAux (acc * 10 + (c.toNat - 48)) rest else none

/-- Value of a non-empty all-digit string; `none` if empty or any non-digit. -/
def digitsVal : List Char → Option Nat
  | [] => none
  | c :: rest => digitsValAux 0 (c :: rest)

/-- Model of Python `int(s)` on a string argument: strip whitespace, allow one
leading sign, then a non-empty digit run.  `none` models the `ValueError`
raised on parse failure. -/
def pyInt (s : List Char) : Option Int :=
  match pyStripChars s with
  | [] => none
  | c :: rest =>
    if c = '+' then (digitsVal rest).map (fun n => (n : Int))
    else if c = '-' then (digitsVal rest).map (fun n => -(n : Int))
    else (digitsVal (c :: rest)).map (fun n => (n : Int))

/-- The four options of the `db_type` selectbox (`src/app.py` line 18). -/
inductive DbType where
  | postgreSQL
  | mongoDB
  | mySQL
  | msSQL
deriving DecidableEq, Repr

/-- The `default_ports` table (`src/app.py` lines 26-31), values kept as the
source's strings.  The selectbox makes the lookup total, so the `.get`
fallback of the source never fires. -/
def default_ports : DbType → List Char
  | .postgreSQL => "5432".data
  | .mongoDB => "27017".data
  | .mySQL => "3306".data
  | .msSQL => "1433".data

/-- Python `s.replace(x, "")` where `x` is the three-backtick-plus-sql fence
opener: scan left to right, deleting each non-overlapping occurrence
(`src/app.py` line 64, first `replace`). -/
def delSqlFence : List Char → List Char
  | c1 :: c2 :: c3 :: c4 :: c5 :: c6 :: rest =>
    if c1 = tick ∧ c2 = tick ∧ c3 = tick ∧ c4 = 's' ∧ c5 = 'q' ∧ c6 = 'l' then
      delSqlFence rest
    else
      c1 :: delSqlFence (c2 :: c3 :: c4 :: c5 :: c6 :: rest)
  | c :: rest => c :: delSqlFence rest
  | [] => []

/-- Python `s.replace(x, "")` where `x` is a bare triple-backtick fence:
scan left to right, deleting each non-overlapping occurrence
(`src/app.py` line 64, second `replace`). -/
def delTicks : List Char → List Char
  | [] => []
  | [c] => [c]
  | [c, d] => [c, d]
  | c :: d :: e :: rest =>
    if c = tick ∧ d = tick ∧ e = tick then delTicks rest
    else c :: delTicks (d :: e :: rest)

/-- Whether three consecutive backticks occur anywhere in the string, i.e.
whether a triple-backtick fence marker is still present. -/
def hasTriple : List Char → Bool
  | [] => false
  | [_] => false
  | [_, _] => false
  | c :: d :: e :: rest =>
    if c = tick ∧ d = tick ∧ e = tick then true
    else hasTriple (d :: e :: rest)

/-- `generate_sql` (`src/app.py` lines 50-67).  The prompt construction and
the network call to the generation service are external; the oracle argument
is the outcome of `model.generate_content(prompt)`: `.ok text` is the raw
response text, `.error e` is the message of an exception raised anywhere in
the `try` block.  On success the source computes
`response.text.strip().replace(fenceSql, empty).replace(fence, empty).strip()`;
on failure it returns the string `"Error generating SQL: " + str(e)`. -/
def generate_sql (response : Except (List Char) (List Char)) : List Char :=
  match response with
  | .ok text => pyStripChars (delTicks (delSqlFence (pyStripChars text)))
  | .error e => "Error generating SQL: ".data ++ e

/-- Normalized connection parameters: the `db_config` dict built by the
Connect handler (`src/app.py` lines 112-118).  `port` is `none` exactly when
the source popped the key. -/
structure DbConfig where
  host : List Char
  port : Option Int
  database : List Char
  user : List Char
  password : List Char
deriving DecidableEq, Repr

/-- A MongoDB document: an association list of top-level field names to
values; the value type is abstract. -/
abbrev MongoDoc (α : Type) : Type := List (List Char × α)

/-- Oracle for the MongoDB driver inside `execute_mongo_query`: either the
`find` call raises (bad host, auth failure, ...) with a message, or the named
collection holds the given documents. -/
inductive MongoBehavior (α : Type) where
  | findFails (msg : List Char)
  | store (docs : List (MongoDoc α))

/-- The dictionary returned by `execute_mongo_query`: either the string under
key "error", or the document list under key "data". -/
inductive MongoResult (α : Type) where
  | error (msg : List Char)
  | data (docs : List (MongoDoc α))
deriving DecidableEq

/-- Outcome of one `execute_mongo_query` call together with its resource
trace: how many Mongo clients the call constructed and how many it
explicitly closed. -/
structure MongoRun (α : Type) where
  result : MongoResult α
  clientsOpened : Nat
  clientsClosed : Nat
deriving DecidableEq

/-- Semantics of the server-side projection the source requests in
`collection.find` with the identity field mapped to 0: every document is
returned with its internal identity field removed (documented MongoDB
projection behaviour, exercised at `src/app.py` line 74). -/
def mongoProject (docs : List (MongoDoc α)) : List (MongoDoc α) :=
  docs.map (fun d => d.filter (fun kv => decide (kv.1 ≠ "_id".data)))

/-- `execute_mongo_query` (`src/app.py` lines 69-77): construct a client,
select database and collection, run `find` with the identity-excluding
projection.  The source never calls `client.close()`, so `clientsClosed` is 0
on both paths. -/
def execute_mongo_query (collection_name : List Char) (db_config : DbConfig)
    (behavior : MongoBehavior α) : MongoRun α :=
  match behavior with
  | .findFails msg => ⟨.error msg, 1, 0⟩
  | .store docs => ⟨.data (mongoProject docs), 1, 0⟩

/-- Column list that `pandas.DataFrame` derives from a list of documents:
the union of the documents' top-level keys, in first-seen order
(`src/app.py` line 174). -/
def dfColumns (docs : List (MongoDoc α)) : List (List Char) :=
  docs.foldl (fun cols d => cols ++ ((d.map Prod.fst).filter (fun k => decide (k ∉ cols)))) []

/-- One entry of the DB-API `cursor.description` sequence: the source reads
`desc[0]`, the column name; the remaining metadata is abstracted into one
field. -/
structure ColDesc where
  name : List Char
  typeCode : Nat
deriving DecidableEq, Repr

/-- Oracle for a relational driver inside `execute_sql_query`: the `connect`
call raises, or `cursor.execute`/`fetchall`/`description` raises after the
connection opened, or the query succeeds with rows and result metadata. -/
inductive SqlBehavior (α : Type) where
  | connectFails (msg : List Char)
  | queryFails (msg : List Char)
  | succeeds (rows : List (List α)) (desc : List ColDesc)

/-- The dictionary returned by `execute_sql_query`: the string under key
"error", or the lists under keys "columns" and "data". -/
inductive SqlResult (α : Type) where
  | error (msg : List Char)
  | ok (columns : List (List Char)) (data : List (List α))
deriving DecidableEq

/-- Outcome of one `execute_sql_query` call together with its resource trace:
how many driver connections the call opened and how many it closed. -/
structure SqlRun (α : Type) where
  result : SqlResult α
  connectionsOpened : Nat
  connectionsClosed : Nat
deriving DecidableEq

/-- `execute_sql_query` (`src/app.py` lines 79-106): dispatch on the backend
kind, open a connection, run the query, read `fetchall` and the column names
`desc[0]` from `cursor.description` in reported order, convert each row with
`list(row)`, close cursor and connection, return columns and data.  The
`close` calls are not in a `finally` block, so a driver exception raised
after `connect` leaves the connection open (`connectionsClosed = 0`). -/
def execute_sql_query (sql_query : List Char) (db_type : DbType)
    (behavior : SqlBehavior α) (db_config : DbConfig) : SqlRun α :=
  match db_type with
  | .mongoDB => ⟨.error "Invalid database type".data, 0, 0⟩
  | _ =>
    match behavior with
    | .connectFails msg => ⟨.error msg, 0, 0⟩
    | .queryFails msg => ⟨.error msg, 1, 0⟩
    | .succeeds rows desc => ⟨.ok (desc.map ColDesc.name) rows, 1, 1⟩

/-- The one Python exception that can escape the Connect handler: the
`ValueError` raised by `int()` on a non-numeric literal at `src/app.py`
line 114, which sits outside the handler's `try` block. -/
inductive PyExc where
  | valueErrorInvalidInt (literal : List Char)
deriving DecidableEq, Repr

/-- `use_port` (`src/app.py` line 111): the entered port if non-empty
(Python truthiness of a string), else the default for the selected kind. -/
def connectUsePort (db_type : DbType) (portField : List Char) : List Char :=
  if portField = [] then default_ports db_type else portField

/-- The `db_config` construction of the Connect handler (`src/app.py` lines
111-122): resolve `use_port`, apply `int` to it when truthy (raising an
uncaught `ValueError` on a non-numeric literal), and pop the port key when it
would be `None`.  `use_port` is never empty because the defaults table covers
every kind, so the pop branch is dead code kept for fidelity. -/
def connectConfig (db_type : DbType) (host portField database user password : List Char) :
    Except PyExc DbConfig :=
  let use_port := connectUsePort db_type portField
  if use_port = [] then .ok ⟨host, none, database, user, password⟩
  else
    match pyInt use_port with
    | none => .error (.valueErrorInvalidInt use_port)
    | some p => .ok ⟨host, some p, database, user, password⟩

/-- The connection profile handed to the driver's connectivity probe, when
the Connect handler reaches the probe at all (`src/app.py` lines 124-140):
`none` when the uncaught `int()` exception fires first. -/
def probeInput (db_type : DbType) (host portField database user password : List Char) :
    Option DbConfig :=
  (connectConfig db_type host portField database user password).toOption

/-- The keys `db_type`, `db_config` and `collection_name` of
`st.session_state`; `none` models an absent key. -/
structure SessionState where
  db_type : Option DbType
  db_config : Option DbConfig
  collection_name : Option (List Char)
deriving DecidableEq, Repr

/-- Observable outcome of one press of the Connect button. -/
inductive ConnectOutcome where
  | pyError (e : PyExc)
  | connectionFailed (msg : List Char)
  | connected
deriving DecidableEq, Repr

/-- The Connect button handler (`src/app.py` lines 109-152).  `probe` is the
oracle for the driver's connectivity check (the body of the `try` block):
`.error msg` is an exception caught by the `except` arm.  Session state is
written only after a successful probe; on probe failure, and on the uncaught
`int()` exception, the previous state is returned unchanged. -/
def connectHandler (probe : DbType → DbConfig → Except (List Char) Unit)
    (db_type : DbType) (host portField database user password collectionField : List Char)
    (st : SessionState) : ConnectOutcome × SessionState :=
  match connectConfig db_type host portField database user password with
  | .error e => (.pyError e, st)
  | .ok cfg =>
    match probe db_type cfg with
    | .error msg => (.connectionFailed ("Connection failed: ".data ++ msg), st)
    | .ok _ =>
      (.connected,
        ⟨some db_type, some cfg,
          if db_type = DbType.mongoDB then some collectionField else st.collection_name⟩)

/-- Observable outcome of one press of the Get Answer button. -/
inductive AskOutcome (α : Type) where
  | missingCollection
  | mongoError (msg : List Char)
  | mongoTable (docs : List (MongoDoc α))
  | generationErrorShown (msg : List Char)
  | sqlError (shownQuery msg : List Char)
  | sqlTable (shownQuery : List Char) (columns : List (List Char)) (rows : List (List α))
deriving DecidableEq

/-- Outcome of one Get Answer press together with the query text passed to
`execute_sql_query`, if that call was made at all. -/
structure AskRun (α : Type) where
  outcome : AskOutcome α
  executedSql : Option (List Char)
deriving DecidableEq

/-- The Get Answer handler (`src/app.py` lines 159-188), for a session whose
state holds `db_type` and `db_config`.  For MongoDB: a falsy collection name
(absent key or empty string) stops with an error, otherwise the collection is
fetched.  Otherwise: `generate_sql` runs; a result starting with "Error" is
shown as an error and execution is never attempted; any other result is
passed to `execute_sql_query`. -/
def getAnswer (db_type : DbType) (db_config : DbConfig) (collectionKey : Option (List Char))
    (genResponse : Except (List Char) (List Char)) (sqlBehavior : SqlBehavior α)
    (mongoBehavior : MongoBehavior α) : AskRun α :=
  match db_type with
  | .mongoDB =>
    match collectionKey with
    | none => ⟨.missingCollection, none⟩
    | some c =>
      if c = [] then ⟨.missingCollection, none⟩
      else
        match (execute_mongo_query c db_config mongoBehavior).result with
        | .error m => ⟨.mongoError m, none⟩
        | .data docs => ⟨.mongoTable docs, none⟩
  | _ =>
    let sql_query := generate_sql genResponse
    if "Error".data.isPrefixOf sql_query then ⟨.generationErrorShown sql_query, none⟩
    else
      match (execute_sql_query sql_query db_type sqlBehavior db_config).result with
      | .error m => ⟨.sqlError sql_query m, some sql_query⟩
      | .ok cols rows => ⟨.sqlTable sql_query cols rows, some sql_query⟩

/-! Equation lemmas for the fence-deleting scan and the fence detector. -/

theorem delTicks_nil : delTicks [] = [] := rfl

theorem delTicks_one (c : Char) : delTicks [c] = [c] := rfl

theorem delTicks_two (c d : Char) : delTicks [c, d] = [c, d] := rfl

theorem delTicks_cons3 (c d e : Char) (r : List Char) :
    delTicks (c :: d :: e :: r) =
      if c = tick ∧ d = tick ∧ e = tick then delTicks r
      else c :: delTicks (d :: e :: r) := rfl

theorem hasTriple_nil : hasTriple [] = false := rfl

theorem hasTriple_one (c : Char) : hasTriple [c] = false := rfl

theorem hasTriple_two (c d : Char) : hasTriple [c, d] = false := rfl

theorem hasTriple_cons3 (c d e : Char) (r : List Char) :
    hasTriple (c :: d :: e :: r) =
      if c = tick ∧ d = tick ∧ e = tick then true
      else hasTriple (d :: e :: r) := rfl

/-- Deleting triple fences from a string that starts with a non-backtick
keeps that head character. -/
theorem delTicks_cons_ne (c : Char) (r : List Char) (h : c ≠ tick) :
    ∃ u, delTicks (c :: r) = c :: u := by
  rcases r with _ | ⟨x, _ | ⟨y, u⟩⟩
  · exact ⟨[], rfl⟩
  · exact ⟨[x], rfl⟩
  · rw [delTicks_cons3, if_neg (fun hc => h hc.1)]
    exact ⟨_, rfl⟩

/-- If a string does not begin with two backticks, neither does the result
of deleting its triple fences. -/
theorem delTicks_not_double (d e : Char) (r : List Char)
    (h : ¬ (d = tick ∧ e = tick)) :
    ∀ u, delTicks (d :: e :: r) ≠ tick :: tick :: u := by
  intro u
  rcases r with _ | ⟨f, r2⟩
  · rw [delTicks_two]
    intro hu
    injection hu with h1 h2
    injection h2 with h3 _
    exact h ⟨h1, h3⟩
  · rw [delTicks_cons3]
    by_cases hcond : d = tick ∧ e = tick ∧ f = tick
    · exact absurd ⟨hcond.1, hcond.2.1⟩ h
    · rw [if_neg hcond]
      intro hu
      injection hu with h1 h2
      have he : e ≠ tick := fun he => h ⟨h1, he⟩
      obtain ⟨v, hv⟩ := delTicks_cons_ne e (f :: r2) he
      rw [hv] at h2
      injection h2 with h3 _
      exact he h3

/-- Prepending a character to a fence-free string stays fence-free, provided
a backtick head cannot meet two backticks already at the front. -/
theorem hasTriple_cons_safe (c : Char) (t : List Char) (h1 : hasTriple t = false)
    (h2 : c = tick → ∀ u, t ≠ tick :: tick :: u) : hasTriple (c :: t) = false := by
  rcases t with _ | ⟨x, _ | ⟨y, u⟩⟩
  · rfl
  · rfl
  · rw [hasTriple_cons3]
    by_cases hcond : c = tick ∧ x = tick ∧ y = tick
    · exfalso
      exact h2 hcond.1 u (by rw [hcond.2.1, hcond.2.2])
    · rw [if_neg hcond]
      exact h1

/-- Fuel-indexed main lemma: the left-to-right triple-fence deletion leaves
no triple fence behind. -/
theorem hasTriple_delTicks_aux :
    ∀ (n : Nat) (s : List Char), s.length ≤ n → hasTriple (delTicks s) = false := by
  intro n
  induction n with
  | zero =>
    intro s hs
    have hnil : s = [] := List.eq_nil_of_length_eq_zero (Nat.le_zero.mp hs)
    subst hnil
    rfl
  | succ n ih =>
    intro s hs
    rcases s with _ | ⟨c, _ | ⟨d, _ | ⟨e, r⟩⟩⟩
    · rfl
    · rfl
    · rfl
    · rw [delTicks_cons3]
      by_cases hcond : c = tick ∧ d = tick ∧ e = tick
      · rw [if_pos hcond]
        apply ih r
        simp only [List.length_cons] at hs
        omega
      · rw [if_neg hcond]
        apply hasTriple_cons_safe
        · apply ih (d :: e :: r)
          simp only [List.length_cons] at hs ⊢
          omega
        · intro hc u hu
          exact delTicks_not_double d e r
            (fun hde => hcond ⟨hc, hde.1, hde.2⟩) u hu

/-- The left-to-right triple-fence deletion leaves no triple fence behind. -/
theorem hasTriple_delTicks (s : List Char) : hasTriple (delTicks s) = false :=
  hasTriple_delTicks_aux s.length s le_rfl

theorem hasTriple_cons_mono (c : Char) (t : List Char) (h : hasTriple t = true) :
    hasTriple (c :: t) = true := by
  rcases t with _ | ⟨x, _ | ⟨y, u⟩⟩
  · rw [hasTriple_nil] at h
    exact absurd h (by decide)
  · rw [hasTriple_one] at h
    exact absurd h (by decide)
  · rw [hasTriple_cons3]
    by_cases hcond : c = tick ∧ x = tick ∧ y = tick
    · rw [if_pos hcond]
    · rw [if_neg hcond]
      exact h

theorem hasTriple_append_left (l1 l2 : List Char) (h : hasTriple l2 = true) :
    hasTriple (l1 ++ l2) = true := by
  induction l1 with
  | nil => exact h
  | cons c cs ih => exact hasTriple_cons_mono c (cs ++ l2) ih

theorem hasTriple_append_right_aux :
    ∀ (n : Nat) (l1 l2 : List Char), l1.length ≤ n → hasTriple l1 = true →
      hasTriple (l1 ++ l2) = true := by
  intro n
  induction n with
  | zero =>
    intro l1 l2 hlen h
    have hnil : l1 = [] := List.eq_nil_of_length_eq_zero (Nat.le_zero.mp hlen)
    subst hnil
    rw [hasTriple_nil] at h
    exact absurd h (by decide)
  | succ n ih =>
    intro l1 l2 hlen h
    rcases l1 with _ | ⟨c, _ | ⟨d, _ | ⟨e, r⟩⟩⟩
    · rw [hasTriple_nil] at h
      exact absurd h (by decide)
    · rw [hasTriple_one] at h
      exact absurd h (by decide)
    · rw [hasTriple_two] at h
      exact absurd h (by decide)
    · rw [hasTriple_cons3] at h
      show hasTriple (c :: d :: e :: (r ++ l2)) = true
      rw [hasTriple_cons3]
      by_cases hcond : c = tick ∧ d = tick ∧ e = tick
      · rw [if_pos hcond]
      · rw [if_neg hcond] at h ⊢
        apply ih (d :: e :: r) l2 ?_ h
        simp only [List.length_cons] at hlen ⊢
        omega

/-- A contiguous middle piece of a fence-free string is fence-free. -/
theorem hasTriple_infix_false (s l1 m l2 : List Char) (heq : s = l1 ++ m ++ l2)
    (hs : hasTriple s = false) : hasTriple m = false := by
  cases hm : hasTriple m
  · rfl
  · exfalso
    have hall : hasTriple (l1 ++ (m ++ l2)) = true :=
      hasTriple_append_left l1 (m ++ l2)
        (hasTriple_append_right_aux m.length m l2 le_rfl hm)
    rw [← List.append_assoc, ← heq, hs] at hall
    exact absurd hall (by decide)

/-- `pyStripChars s` is a contiguous middle piece of `s`. -/
theorem pyStripChars_infix (s : List Char) :
    ∃ l1 l2, s = l1 ++ pyStripChars s ++ l2 := by
  have h1 : s.takeWhile Char.isWhitespace ++ s.dropWhile Char.isWhitespace = s :=
    @List.takeWhile_append_dropWhile _ Char.isWhitespace s
  have h2 : (s.dropWhile Char.isWhitespace).reverse.takeWhile Char.isWhitespace ++
      (s.dropWhile Char.isWhitespace).reverse.dropWhile Char.isWhitespace =
      (s.dropWhile Char.isWhitespace).reverse :=
    @List.takeWhile_append_dropWhile _ Char.isWhitespace _
  refine ⟨s.takeWhile Char.isWhitespace,
    ((s.dropWhile Char.isWhitespace).reverse.takeWhile Char.isWhitespace).reverse, ?_⟩
  have h3 : pyStripChars s ++
      ((s.dropWhile Char.isWhitespace).reverse.takeWhile Char.isWhitespace).reverse =
      s.dropWhile Char.isWhitespace := by
    unfold pyStripChars
    rw [← List.reverse_append, h2, List.reverse_reverse]
  rw [List.append_assoc, h3, h1]

/-- Fuel-indexed half of the fence characterization. -/
theorem hasTriple_decomp_aux :
    ∀ (n : Nat) (s : List Char), s.length ≤ n → hasTriple s = true →
      ∃ l1 l2, s = l1 ++ tick :: tick :: tick :: l2 := by
  intro n
  induction n with
  | zero =>
    intro s hlen h
    have hnil : s = [] := List.eq_nil_of_length_eq_zero (Nat.le_zero.mp hlen)
    subst hnil
    rw [hasTriple_nil] at h
    exact absurd h (by decide)
  | succ n ih =>
    intro s hlen h
    rcases s with _ | ⟨c, _ | ⟨d, _ | ⟨e, r⟩⟩⟩
    · rw [hasTriple_nil] at h
      exact absurd h (by decide)
    · rw [hasTriple_one] at h
      exact absurd h (by decide)
    · rw [hasTriple_two] at h
      exact absurd h (by decide)
    · rw [hasTriple_cons3] at h
      by_cases hcond : c = tick ∧ d = tick ∧ e = tick
      · exact ⟨[], r, by rw [hcond.1, hcond.2.1, hcond.2.2]; rfl⟩
      · rw [if_neg hcond] at h
        obtain ⟨l1, l2, heq⟩ := ih (d :: e :: r)
          (by simp only [List.length_cons] at hlen ⊢; omega) h
        exact ⟨c :: l1, l2, by rw [List.cons_append, ← heq]⟩

/-- `hasTriple` detects exactly the presence of a triple-backtick fence
marker as a contiguous substring. -/
theorem hasTriple_iff_decomp (s : List Char) :
    hasTriple s = true ↔ ∃ l1 l2, s = l1 ++ tick :: tick :: tick :: l2 := by
  constructor
  · exact hasTriple_decomp_aux s.length s le_rfl
  · rintro ⟨l1, l2, heq⟩
    subst heq
    apply hasTriple_append_left
    rw [hasTriple_cons3, if_pos ⟨rfl, rfl, rfl⟩]

/-- The resolved `use_port` is never the empty string: the entered field is
only replaced when empty, and every kind's default is non-empty. -/
theorem connectUsePort_ne_nil (db_type : DbType) (portField : List Char) :
    connectUsePort db_type portField ≠ [] := by
  unfold connectUsePort
  by_cases h : portField = []
  · rw [if_pos h]
    cases db_type <;> decide
  · rw [if_neg h]
    exact h

/-- A key absent from every document never shows up among the DataFrame
columns derived from those documents. -/
theorem dfColumns_not_mem_aux {α : Type} (k : List Char) :
    ∀ (docs : List (MongoDoc α)) (acc : List (List Char)),
      (∀ d ∈ docs, k ∉ d.map Prod.fst) → k ∉ acc →
      k ∉ docs.foldl
        (fun cols d => cols ++ ((d.map Prod.fst).filter (fun x => decide (x ∉ cols)))) acc := by
  intro docs
  induction docs with
  | nil =>
    intro acc _ hacc
    simpa using hacc
  | cons d ds ih =>
    intro acc hall hacc
    simp only [List.foldl_cons]
    apply ih
    · intro d2 hd2
      exact hall d2 (List.mem_cons_of_mem d hd2)
    · intro hmem
      rw [List.mem_append] at hmem
      rcases hmem with h1 | h2
      · exact hacc h1
      · exact hall d (List.mem_cons_self d ds) (List.mem_filter.mp h2).1

/-- Package of `dfColumns_not_mem_aux` at the empty accumulator. -/
theorem dfColumns_not_mem {α : Type} (k : List Char) (docs : List (MongoDoc α))
    (h : ∀ d ∈ docs, k ∉ d.map Prod.fst) : k ∉ dfColumns docs := by
  unfold dfColumns
  exact dfColumns_not_mem_aux k docs [] h (List.not_mem_nil k)

/-- The documented default-port table (spec sections 4.1 and 8). -/
def documentedDefaultPort : DbType → Int
  | .postgreSQL => 5432
  | .mongoDB => 27017
  | .mySQL => 3306
  | .msSQL => 1433

/-- A connection profile used by concrete witnesses. -/
def demoConfig : DbConfig :=
  ⟨"localhost".data, some 5432, "demo".data, "u".data, "pw".data⟩

/-- A probe oracle whose connectivity check always succeeds. -/
def probeAccept : DbType → DbConfig → Except (List Char) Unit := fun _ _ => .ok ()

/-- A probe oracle whose connectivity check always raises. -/
def probeRefuse : DbType → DbConfig → Except (List Char) Unit :=
  fun _ _ => .error "connection refused".data

/-- A session that is already connected to a MySQL backend. -/
def prevSession : SessionState :=
  ⟨some DbType.mySQL,
    some ⟨"oldhost".data, some 3306, "olddb".data, "olduser".data, "oldpw".data⟩,
    none⟩

/-- A session with no keys set (never connected). -/
def emptySession : SessionState := ⟨none, none, none⟩

/-- Claim C1: a Connect attempt whose connectivity probe fails reports a
connection error and returns the previously stored session state (backend
kind, connection profile, collection name) unchanged; state is replaced
only after the probe succeeds. -/
theorem claim1_failed_connect_preserves_session
    (probe : DbType → DbConfig → Except (List Char) Unit) (db_type : DbType)
    (host portField database user password collectionField : List Char)
    (st : SessionState) (cfg : DbConfig) (msg : List Char)
    (hcfg : connectConfig db_type host portField database user password = .ok cfg)
    (hprobe : probe db_type cfg = .error msg) :
    connectHandler probe db_type host portField database user password collectionField st =
      (.connectionFailed ("Connection failed: ".data ++ msg), st) := by
  simp only [connectHandler, hcfg, hprobe]

/-- Witness for C1: a live MySQL session survives a refused PostgreSQL
reconnect attempt untouched. -/
theorem claim1_witness :
    connectHandler probeRefuse DbType.postgreSQL "localhost".data "5432".data
        "demo".data "u".data "pw".data [] prevSession =
      (.connectionFailed ("Connection failed: ".data ++ "connection refused".data),
        prevSession) :=
  claim1_failed_connect_preserves_session probeRefuse DbType.postgreSQL
    "localhost".data "5432".data "demo".data "u".data "pw".data [] prevSession
    demoConfig "connection refused".data rfl rfl

/-- Claim C2: on a relational backend, a failing generation step is reported
directly as the generation error message and `execute_sql_query` is never
invoked. -/
theorem claim2_generation_failure_never_executed {α : Type} (db_type : DbType)
    (hdb : db_type ≠ DbType.mongoDB) (db_config : DbConfig)
    (collectionKey : Option (List Char)) (e : List Char)
    (sqlBehavior : SqlBehavior α) (mongoBehavior : MongoBehavior α) :
    getAnswer db_type db_config collectionKey (.error e) sqlBehavior mongoBehavior =
      ⟨.generationErrorShown ("Error generating SQL: ".data ++ e), none⟩ := by
  cases db_type
  case mongoDB => exact absurd rfl hdb
  all_goals rfl

/-- Witness for C2 at a concrete quota failure on MySQL. -/
theorem claim2_witness :
    getAnswer DbType.mySQL demoConfig none (.error "quota exceeded".data)
        (SqlBehavior.succeeds ([] : List (List Nat)) []) (MongoBehavior.store []) =
      ⟨.generationErrorShown ("Error generating SQL: ".data ++ "quota exceeded".data),
        none⟩ :=
  claim2_generation_failure_never_executed DbType.mySQL (by decide) demoConfig none
    "quota exceeded".data (SqlBehavior.succeeds [] []) (MongoBehavior.store [])

/-- Claim C3: a successful relational execution returns the Tabular result
whose column names are the driver-reported metadata names in reported order,
and every row's length equals the column count (given the DB-API guarantee
that each fetched row has one value per described column). -/
theorem claim3_tabular_invariant {α : Type} (db_type : DbType)
    (hdb : db_type ≠ DbType.mongoDB) (sql_query : List Char) (db_config : DbConfig)
    (rows : List (List α)) (desc : List ColDesc)
    (hrows : ∀ r ∈ rows, r.length = desc.length) :
    (execute_sql_query sql_query db_type (.succeeds rows desc) db_config).result =
      .ok (desc.map ColDesc.name) rows ∧
    ∀ r ∈ rows, r.length = (desc.map ColDesc.name).length := by
  constructor
  · cases db_type
    case mongoDB => exact absurd rfl hdb
    all_goals rfl
  · intro r hr
    rw [List.length_map]
    exact hrows r hr

/-- Witness for C3: a two-column, two-row PostgreSQL result. -/
theorem claim3_witness :
    (execute_sql_query "SELECT id, age FROM users".data DbType.postgreSQL
        (SqlBehavior.succeeds [[1, 41], [2, 27]] [⟨"id".data, 23⟩, ⟨"age".data, 23⟩])
        demoConfig).result =
      .ok ([⟨"id".data, 23⟩, ⟨"age".data, 23⟩].map ColDesc.name) [[1, 41], [2, 27]] ∧
    ∀ r ∈ [[1, 41], [2, 27]],
      r.length = ([⟨"id".data, 23⟩, ⟨"age".data, 23⟩].map ColDesc.name).length :=
  claim3_tabular_invariant DbType.postgreSQL (by decide)
    "SELECT id, age FROM users".data demoConfig [[1, 41], [2, 27]]
    [⟨"id".data, 23⟩, ⟨"age".data, 23⟩] (by decide)

/-- Claim C4: building the connection configuration with an empty port field
substitutes the documented default port of the selected kind (PostgreSQL
5432, MongoDB 27017, MySQL 3306, MSSQL 1433). -/
theorem claim4_empty_port_defaults (db_type : DbType)
    (host database user password : List Char) :
    connectConfig db_type host [] database user password =
      .ok ⟨host, some (documentedDefaultPort db_type), database, user, password⟩ := by
  cases db_type <;> rfl

/-- Claim C5 counterexample: with the non-numeric port "abc" the Connect
handler ends in the uncaught `ValueError` of `int()` — an untyped exception,
not a typed validation error — because the parse sits outside the handler's
`try` block.  No driver call is reached. -/
theorem claim5_counterexample :
    connectHandler probeAccept DbType.postgreSQL "localhost".data "abc".data
        "demo".data "u".data "pw".data [] emptySession =
      (.pyError (.valueErrorInvalidInt "abc".data), emptySession) ∧
    probeInput DbType.postgreSQL "localhost".data "abc".data "demo".data "u".data
        "pw".data = none :=
  ⟨rfl, rfl⟩

/-- Claim C5 as amended: a non-empty, non-numeric port never reaches a driver
call, but it fails with the uncaught `ValueError` raised by `int()` (an
untyped exception escaping the handler), not with a typed ValidationError;
the session state is left unchanged. -/
theorem claim5_amended_nonnumeric_port_uncaught_valueerror
    (probe : DbType → DbConfig → Except (List Char) Unit) (db_type : DbType)
    (host portField database user password collectionField : List Char)
    (st : SessionState) (hne : portField ≠ []) (hbad : pyInt portField = none) :
    connectHandler probe db_type host portField database user password collectionField st =
      (.pyError (.valueErrorInvalidInt portField), st) ∧
    probeInput db_type host portField database user password = none := by
  have huse : connectUsePort db_type portField = portField := if_neg hne
  have hcfg : connectConfig db_type host portField database user password =
      .error (.valueErrorInvalidInt portField) := by
    simp only [connectConfig, huse, if_neg hne, hbad]
  exact ⟨by simp only [connectHandler, hcfg], by simp only [probeInput, hcfg]; rfl⟩

/-- Witness for the amended C5 at the concrete port "12ab". -/
theorem claim5_amended_witness :
    connectHandler probeAccept DbType.mySQL "localhost".data "12ab".data
        "demo".data "u".data "pw".data [] emptySession =
      (.pyError (.valueErrorInvalidInt "12ab".data), emptySession) ∧
    probeInput DbType.mySQL "localhost".data "12ab".data "demo".data "u".data
        "pw".data = none :=
  claim5_amended_nonnumeric_port_uncaught_valueerror probeAccept DbType.mySQL
    "localhost".data "12ab".data "demo".data "u".data "pw".data [] emptySession
    (by decide) (by decide)

/-- Claim C6: a successful document fetch returns the stored documents with
the internal identity field projected away: the field is absent from every
returned document and from the DataFrame columns derived from them. -/
theorem claim6_fetch_excludes_identity_field {α : Type} (collection_name : List Char)
    (db_config : DbConfig) (docs : List (MongoDoc α)) :
    (execute_mongo_query collection_name db_config (.store docs)).result =
      .data (mongoProject docs) ∧
    (∀ d ∈ mongoProject docs, "_id".data ∉ d.map Prod.fst) ∧
    "_id".data ∉ dfColumns (mongoProject docs) := by
  have habsent : ∀ d ∈ mongoProject docs, "_id".data ∉ d.map Prod.fst := by
    intro d hd
    obtain ⟨d0, _, hproj⟩ := List.mem_map.mp hd
    intro hmem
    obtain ⟨kv, hkv, hfst⟩ := List.mem_map.mp hmem
    rw [← hproj] at hkv
    exact of_decide_eq_true (List.mem_filter.mp hkv).2 hfst
  exact ⟨rfl, habsent, dfColumns_not_mem "_id".data (mongoProject docs) habsent⟩

/-- Claim C7: for every raw response of the generation service, the string
`generate_sql` returns on the success path contains no triple-backtick fence
marker (`hasTriple` characterizes exactly the presence of such a substring,
by `hasTriple_iff_decomp`). -/
theorem claim7_generate_sql_fence_free (raw : List Char) :
    hasTriple (generate_sql (.ok raw)) = false := by
  show hasTriple (pyStripChars (delTicks (delSqlFence (pyStripChars raw)))) = false
  obtain ⟨l1, l2, heq⟩ := pyStripChars_infix (delTicks (delSqlFence (pyStripChars raw)))
  exact hasTriple_infix_false _ l1 _ l2 heq (hasTriple_delTicks _)

/-- Claim C8 counterexample: the entered port "0" parses, so the profile
reaches the connectivity probe carrying port 0 — an integer that is not
positive.  The invariant as stated ("a resolved positive integer") fails. -/
theorem claim8_counterexample :
    probeInput DbType.postgreSQL "localhost".data "0".data "demo".data "u".data
        "pw".data =
      some ⟨"localhost".data, some 0, "demo".data, "u".data, "pw".data⟩ ∧
    ¬ (0 : Int) > 0 :=
  ⟨rfl, by decide⟩

/-- Claim C8 as amended: every profile that reaches a driver call carries a
port that is the resolved `int()` value of the entered field (or of the
kind's default) — always an integer, never free-form text — but it is not
guaranteed to be positive. -/
theorem claim8_amended_port_always_parsed_integer (db_type : DbType)
    (host portField database user password : List Char) (cfg : DbConfig)
    (hreach : probeInput db_type host portField database user password = some cfg) :
    cfg.port = pyInt (connectUsePort db_type portField) ∧ cfg.port ≠ none := by
  have hne : connectUsePort db_type portField ≠ [] :=
    connectUsePort_ne_nil db_type portField
  simp only [probeInput, connectConfig, if_neg hne] at hreach
  cases hp : pyInt (connectUsePort db_type portField) with
  | none =>
    rw [hp] at hreach
    exact absurd hreach (by simp [Except.toOption])
  | some p =>
    rw [hp] at hreach
    simp only [Except.toOption, Option.some.injEq] at hreach
    rw [← hreach]
    exact ⟨rfl, by simp⟩

/-- Witness for the amended C8 at the concrete entered port "3307". -/
theorem claim8_amended_witness :
    (⟨"localhost".data, some 3307, "demo".data, "u".data, "pw".data⟩ : DbConfig).port =
      pyInt (connectUsePort DbType.mySQL "3307".data) ∧
    (⟨"localhost".data, some 3307, "demo".data, "u".data, "pw".data⟩ : DbConfig).port ≠
      none :=
  claim8_amended_port_always_parsed_integer DbType.mySQL "localhost".data
    "3307".data "demo".data "u".data "pw".data
    ⟨"localhost".data, some 3307, "demo".data, "u".data, "pw".data⟩ rfl

/-- Claim C9 counterexample: when the driver raises mid-query (after
`connect` succeeded), the relational adapter returns the error but the
connection it opened is never closed — the `close` calls are only on the
success path, not in a `finally` block. -/
theorem claim9_counterexample :
    (execute_sql_query "SELECT * FROM users".data DbType.postgreSQL
        (SqlBehavior.queryFails "syntax error".data : SqlBehavior Nat)
        demoConfig).connectionsOpened = 1 ∧
    (execute_sql_query "SELECT * FROM users".data DbType.postgreSQL
        (SqlBehavior.queryFails "syntax error".data : SqlBehavior Nat)
        demoConfig).connectionsClosed = 0 :=
  ⟨rfl, rfl⟩

/-- Claim C9 as amended: the relational adapter closes its connection only on
the full success path; if the driver raises after the connection opened, the
connection stays open, and the document adapter never explicitly closes the
client it constructs, on either path. -/
theorem claim9_amended_release_only_on_success {α : Type} (db_type : DbType)
    (hdb : db_type ≠ DbType.mongoDB) (sql_query : List Char) (db_config : DbConfig)
    (rows : List (List α)) (desc : List ColDesc) (msg msg2 collection_name : List Char)
    (mongoBehavior : MongoBehavior α) :
    ((execute_sql_query sql_query db_type (.succeeds rows desc) db_config).connectionsOpened = 1 ∧
     (execute_sql_query sql_query db_type (.succeeds rows desc) db_config).connectionsClosed = 1) ∧
    ((execute_sql_query sql_query db_type (SqlBehavior.queryFails msg : SqlBehavior α)
        db_config).connectionsOpened = 1 ∧
     (execute_sql_query sql_query db_type (SqlBehavior.queryFails msg : SqlBehavior α)
        db_config).connectionsClosed = 0) ∧
    ((execute_sql_query sql_query db_type (SqlBehavior.connectFails msg2 : SqlBehavior α)
        db_config).connectionsOpened = 0 ∧
     (execute_sql_query sql_query db_type (SqlBehavior.connectFails msg2 : SqlBehavior α)
        db_config).connectionsClosed = 0) ∧
    ((execute_mongo_query collection_name db_config mongoBehavior).clientsOpened = 1 ∧
     (execute_mongo_query collection_name db_config mongoBehavior).clientsClosed = 0) := by
  cases db_type
  case mongoDB => exact absurd rfl hdb
  all_goals
    refine ⟨⟨rfl, rfl⟩, ⟨rfl, rfl⟩, ⟨rfl, rfl⟩, ?_⟩
    cases mongoBehavior <;> exact ⟨rfl, rfl⟩

/-- Witness for the amended C9 on PostgreSQL with a stored Mongo collection. -/
theorem claim9_amended_witness :
    ((execute_sql_query "SELECT 1".data DbType.postgreSQL
        (SqlBehavior.succeeds [[7]] [⟨"one".data, 23⟩] : SqlBehavior Nat)
        demoConfig).connectionsOpened = 1 ∧
     (execute_sql_query "SELECT 1".data DbType.postgreSQL
        (SqlBehavior.succeeds [[7]] [⟨"one".data, 23⟩] : SqlBehavior Nat)
        demoConfig).connectionsClosed = 1) ∧
    ((execute_sql_query "SELECT 1".data DbType.postgreSQL
        (SqlBehavior.queryFails "bad syntax".data : SqlBehavior Nat)
        demoConfig).connectionsOpened = 1 ∧
     (execute_sql_query "SELECT 1".data DbType.postgreSQL
        (SqlBehavior.queryFails "bad syntax".data : SqlBehavior Nat)
        demoConfig).connectionsClosed = 0) ∧
    ((execute_sql_query "SELECT 1".data DbType.postgreSQL
        (SqlBehavior.connectFails "refused".data : SqlBehavior Nat)
        demoConfig).connectionsOpened = 0 ∧
     (execute_sql_query "SELECT 1".data DbType.postgreSQL
        (SqlBehavior.connectFails "refused".data : SqlBehavior Nat)
        demoConfig).connectionsClosed = 0) ∧
    ((execute_mongo_query "orders".data demoConfig
        (MongoBehavior.store ([] : List (MongoDoc Nat)))).clientsOpened = 1 ∧
     (execute_mongo_query "orders".data demoConfig
        (MongoBehavior.store ([] : List (MongoDoc Nat)))).clientsClosed = 0) :=
  claim9_amended_release_only_on_success DbType.postgreSQL (by decide)
    "SELECT 1".data demoConfig [[7]] [⟨"one".data, 23⟩] "bad syntax".data
    "refused".data "orders".data (MongoBehavior.store [])

/-- Claim C10: on a relational session, the Get Answer handler classifies the
generation outcome solely by whether the produced string starts with
"Error": such a string — even a legitimately generated query — is shown as
the error and never passed to `execute_sql_query`; any other string is
passed on. -/
theorem claim10_error_string_classification {α : Type} (db_type : DbType)
    (hdb : db_type ≠ DbType.mongoDB) (db_config : DbConfig)
    (collectionKey : Option (List Char)) (genResponse : Except (List Char) (List Char))
    (sqlBehavior : SqlBehavior α) (mongoBehavior : MongoBehavior α) :
    ("Error".data.isPrefixOf (generate_sql genResponse) = true →
      getAnswer db_type db_config collectionKey genResponse sqlBehavior mongoBehavior =
        ⟨.generationErrorShown (generate_sql genResponse), none⟩) ∧
    ("Error".data.isPrefixOf (generate_sql genResponse) = false →
      (getAnswer db_type db_config collectionKey genResponse sqlBehavior
          mongoBehavior).executedSql = some (generate_sql genResponse)) := by
  cases db_type
  case mongoDB => exact absurd rfl hdb
  all_goals
    constructor
    · intro h
      simp [getAnswer, h]
    · intro h
      cases sqlBehavior <;> simp [getAnswer, execute_sql_query, h]

/-- Witness for C10: the legitimate generated text "Error_count FROM logs"
starts with "Error" and is therefore reported as a generation failure and
never executed. -/
theorem claim10_witness :
    getAnswer DbType.postgreSQL demoConfig none
        (.ok "Error_count FROM logs".data)
        (SqlBehavior.succeeds ([] : List (List Nat)) []) (MongoBehavior.store []) =
      ⟨.generationErrorShown (generate_sql (.ok "Error_count FROM logs".data)),
        none⟩ :=
  (claim10_error_string_classification DbType.postgreSQL (by decide) demoConfig
    none (.ok "Error_count FROM logs".data) (SqlBehavior.succeeds [] [])
    (MongoBehavior.store [])).1 (by decide)

end MultiDB
